import Mathlib

/-! Shallow embedding of the lane rendering subsystem of `editor/src/render/lane.rs`.
The geometry and map-model primitives (points, angles, polylines, lane/road/
intersection records, intersection control) live in crates outside the shown
sources, so they are modelled from the spec; the marking generators, the stop
line logic, the label anchor calculator and the drawable lane builder are
translated directly from the source file.
-/

namespace AbStreet

/-- Modelled from the spec: a 2D point with rational coordinates (the `geom`
crate is not among the shown sources). -/
structure Pt2D where
  x : ℚ
  y : ℚ
deriving DecidableEq

/-- Modelled from the spec: a tangent direction, represented by its direction
vector (cosine and sine components), so that the pure angle transforms used by
the renderer (rotation by 270 degrees, opposite) are exact over ℚ. -/
structure Angle where
  c : ℚ
  s : ℚ
deriving DecidableEq

/-- Modelled from the spec: `opposite(angle)` turns the direction around. -/
def Angle.opposite (a : Angle) : Angle := ⟨-a.c, -a.s⟩

/-- Modelled from the spec: `rotate(angle, degrees)` is a pure angle transform;
only the one rotation the renderer uses, 270 degrees, is modelled:
(cos, sin) becomes (sin, -cos). -/
def Angle.rotate_degs270 (a : Angle) : Angle := ⟨a.s, -a.c⟩

/-- Modelled from the spec: the rightward perpendicular of a direction, the
shift direction for perpendicular polyline offsets. -/
def Angle.perp_right (a : Angle) : Angle := ⟨a.s, -a.c⟩

/-- Modelled from the spec: `project(point, distance, angle)` returns the point
translated by `distance` along `angle`. -/
def Pt2D.project_away (p : Pt2D) (dist : ℚ) (a : Angle) : Pt2D :=
  ⟨p.x + dist * a.c, p.y + dist * a.s⟩

/-- Modelled from the spec: a line segment between two endpoints. -/
structure Line where
  pt1 : Pt2D
  pt2 : Pt2D
deriving DecidableEq

/-- Modelled from the spec: `reverse()` swaps the endpoints. -/
def Line.reverse (l : Line) : Line := ⟨l.pt2, l.pt1⟩

/-- Modelled from the spec: `shift(distance)` translates the segment
perpendicular to its direction. Modelled without renormalising the direction,
which is exact for the unit-direction segments the renderer passes to it. -/
def Line.shift (l : Line) (dist : ℚ) : Line :=
  let dx := l.pt2.x - l.pt1.x
  let dy := l.pt2.y - l.pt1.y
  ⟨⟨l.pt1.x + dist * dy, l.pt1.y - dist * dx⟩,
   ⟨l.pt2.x + dist * dy, l.pt2.y - dist * dx⟩⟩

/-- Modelled from the spec: a polyline in arc-length parametrization: its total
arc length, the point and tangent angle at each arc length, and its constituent
segments. The shown sources use polylines only through this interface. -/
structure PolyLine where
  length : ℚ
  pointAt : ℚ → Pt2D × Angle
  lines : List Line

/-- Arc-length lookup `dist_along`: per the spec it fails when the distance is
negative or exceeds the polyline length; the failure (a panic in the source) is
modelled as `none`. -/
def PolyLine.dist_along (p : PolyLine) (d : ℚ) : Option (Pt2D × Angle) :=
  if 0 ≤ d ∧ d ≤ p.length then some (p.pointAt d) else none

/-- Modelled from the spec: the safe arc-length lookup returns "no result"
instead of failing when the requested distance lies outside the polyline,
enabling graceful omission near lane ends. -/
def PolyLine.safe_dist_along (p : PolyLine) (d : ℚ) : Option (Pt2D × Angle) :=
  if 0 ≤ d ∧ d ≤ p.length then some (p.pointAt d) else none

/-- Modelled from the spec: `reverse()` of a polyline: same arc length, walked
from the far end, with opposite tangents; the segment list is reversed. -/
def PolyLine.reversed (p : PolyLine) : PolyLine where
  length := p.length
  pointAt := fun d =>
    let pa := p.pointAt (p.length - d)
    (pa.1, pa.2.opposite)
  lines := (p.lines.map Line.reverse).reverse

/-- Modelled from the spec: the blind perpendicular offset of a polyline: every
point is shifted by `dist` along the rightward perpendicular of its local
tangent, with no miter or bevel correction at joints (an accepted
approximation per the spec). -/
def PolyLine.shift_blindly (p : PolyLine) (dist : ℚ) : PolyLine where
  length := p.length
  pointAt := fun d =>
    let pa := p.pointAt d
    (pa.1.project_away dist pa.2.perp_right, pa.2)
  lines := p.lines.map (fun l => l.shift dist)

/-- Modelled from the spec: the polygon obtained by thickening a centerline to
a fixed width. Its internals are not inspected by any claim. -/
structure Polygon where
  center : PolyLine
  width : ℚ

/-- Modelled from the spec: `make_polygons_blindly` thickens the centerline. -/
def PolyLine.make_polygons_blindly (p : PolyLine) (width : ℚ) : Polygon :=
  ⟨p, width⟩

/-- The color palette keys used by the lane renderer (`colors::Colors`). -/
inductive Colors where
  | RoadOrientation
  | SidewalkMarking
  | ParkingMarking
  | DrivingLaneMarking
  | StopSignMarking
  | Road
  | Parking
  | Sidewalk
  | Biking
  | Broken
deriving DecidableEq

/-- The lane types (`map_model::LaneType`). -/
inductive LaneType where
  | Driving
  | Parking
  | Sidewalk
  | Biking
deriving DecidableEq

/-- Modelled from the spec: the lane-thickness styling constant
(`map_model::geometry::LANE_THICKNESS`, in meters), 2.5 m. -/
def LANE_THICKNESS : ℚ := 5 / 2

/-- Modelled from the spec: the thickness of the road orientation arrow
(`map_model::geometry::BIG_ARROW_THICKNESS`). -/
def BIG_ARROW_THICKNESS : ℚ := 1 / 2

/-- Modelled from the spec: the length of one parking spot
(`map_model::PARKING_SPOT_LENGTH`, in meters), 8 m. -/
def PARKING_SPOT_LENGTH : ℚ := 8

/-- The lane record (`map_model::Lane`), as consumed by the renderer. -/
structure Lane where
  id : ℕ
  parent : ℕ
  lane_type : LaneType
  lane_center_pts : PolyLine
  src_i : ℕ
  dst_i : ℕ
  probably_broken : Bool

/-- `Lane::length`: the arc length of the lane centerline. -/
def Lane.length (l : Lane) : ℚ := l.lane_center_pts.length

/-- `Lane::dist_along`, delegated to the centerline polyline. -/
def Lane.dist_along (l : Lane) (d : ℚ) : Option (Pt2D × Angle) :=
  l.lane_center_pts.dist_along d

/-- `Lane::safe_dist_along`, delegated to the centerline polyline. -/
def Lane.safe_dist_along (l : Lane) (d : ℚ) : Option (Pt2D × Angle) :=
  l.lane_center_pts.safe_dist_along d

/-- `Lane::is_driving`. -/
def Lane.is_driving (l : Lane) : Bool := l.lane_type == LaneType.Driving

/-- `Lane::first_line`: the first centerline segment (degenerate centerlines
are a fatal invariant violation per the spec and are out of scope here). -/
def Lane.first_line (l : Lane) : Line :=
  l.lane_center_pts.lines.headD ⟨⟨0, 0⟩, ⟨0, 0⟩⟩

/-- `Lane::last_line`: the last centerline segment. -/
def Lane.last_line (l : Lane) : Line :=
  l.lane_center_pts.lines.getLastD ⟨⟨0, 0⟩, ⟨0, 0⟩⟩

/-- Modelled from the spec: `Lane::number_parking_spots`, the spot count
computed from lane capacity: the number of spot lengths that fit in the lane,
less one spot kept clear next to the intersection, clamped at zero. -/
def Lane.number_parking_spots (l : Lane) : ℕ :=
  (⌊l.length / PARKING_SPOT_LENGTH⌋ - 1).toNat

/-- The road record (`map_model::Road`), as consumed by the renderer: its own
centerline, the canonical-lane designation, and the per-lane direction and
offset index. -/
structure Road where
  id : ℕ
  center_pts : PolyLine
  canonical_lane : ℕ
  dir_and_offset : ℕ → Bool × ℕ

/-- `Road::is_canonical_lane`. -/
def Road.is_canonical_lane (r : Road) (lane : ℕ) : Bool :=
  r.canonical_lane == lane

/-- The intersection record, reduced to the field the renderer reads. -/
structure Intersection where
  has_traffic_signal : Bool

/-- The map model interface the renderer consumes (`map_model::Map`):
road and intersection lookup by id. -/
structure Map where
  get_r : ℕ → Road
  get_i : ℕ → Intersection

/-- The per-intersection stop sign state (`control::stop_signs::ControlStopSign`),
reduced to the per-lane priority query the renderer uses. -/
structure ControlStopSign where
  is_priority_lane : ℕ → Bool

/-- The intersection control table (`control::ControlMap`): `stop_signs` is a
partial map from intersection id; indexing a missing entry panics in the
source. -/
structure ControlMap where
  stop_signs : ℕ → Option ControlStopSign

/-- A styled set of line segments overlaid on a lane (`Marking` in the
source). -/
structure Marking where
  lines : List Line
  color : Colors
  thickness : ℚ
  round : Bool
deriving DecidableEq

/-- `perp_line`: a perpendicular segment of the given length centered on the
first endpoint of `l`. -/
def perp_line (l : Line) (length : ℚ) : Line :=
  let pt1 := (l.shift (length / 2)).pt1
  let pt2 := ((l.reverse).shift (length / 2)).pt2
  ⟨pt1, pt2⟩

/-- `new_perp_line`, identical to `perp_line` in the source. -/
def new_perp_line (l : Line) (length : ℚ) : Line :=
  let pt1 := (l.shift (length / 2)).pt1
  let pt2 := ((l.reverse).shift (length / 2)).pt2
  ⟨pt1, pt2⟩

/-- The sidewalk tick at arc length `pos`: a perpendicular segment of lane
thickness centered on the centerline point there (the loop body of
`calculate_sidewalk_lines`). -/
def sidewalk_tick (lane : Lane) (pos : ℚ) : Line :=
  let pa := lane.lane_center_pts.pointAt pos
  perp_line ⟨pa.1, pa.1.project_away 1 pa.2⟩ LANE_THICKNESS

/-- The `while dist_along < length - tile_every` loop of
`calculate_sidewalk_lines`, with the panicking `dist_along` lookup modelled as
an `Option` bind. -/
def sidewalk_lines_loop (lane : Lane) (d : ℚ) : Option (List Line) :=
  if d < lane.length - LANE_THICKNESS then
    match lane.dist_along d with
    | none => none
    | some pa =>
      match sidewalk_lines_loop lane (d + LANE_THICKNESS) with
      | none => none
      | some rest =>
        some (perp_line ⟨pa.1, pa.1.project_away 1 pa.2⟩ LANE_THICKNESS :: rest)
  else some []
termination_by (⌈(lane.length - LANE_THICKNESS - d) / LANE_THICKNESS⌉).toNat
decreasing_by
  have ht : (0 : ℚ) < LANE_THICKNESS := by norm_num [LANE_THICKNESS]
  have h1 : (lane.length - LANE_THICKNESS - (d + LANE_THICKNESS)) / LANE_THICKNESS
      = (lane.length - LANE_THICKNESS - d) / LANE_THICKNESS - 1 := by
    field_simp
    ring
  have h2 : (0 : ℚ) < (lane.length - LANE_THICKNESS - d) / LANE_THICKNESS :=
    div_pos (by linarith) ht
  have h3 : 1 ≤ ⌈(lane.length - LANE_THICKNESS - d) / LANE_THICKNESS⌉ :=
    Int.ceil_pos.mpr h2
  rw [h1, Int.ceil_sub_one]
  omega

/-- `calculate_sidewalk_lines`: perpendicular tick marks every lane thickness,
kept away from both ends. -/
def calculate_sidewalk_lines (lane : Lane) : Option Marking :=
  match sidewalk_lines_loop lane LANE_THICKNESS with
  | none => none
  | some lines =>
    some { lines := lines, color := Colors.SidewalkMarking,
           thickness := 1 / 4, round := false }

/-- The three segments of one parking T-mark: the anchor point at arc length
`PARKING_SPOT_LENGTH * (1 + idx)` offset 0.4 lane thickness along the
perpendicular (tangent rotated 270 degrees), with 1 m legs along the opposite
perpendicular, the tangent and its opposite (the loop body of
`calculate_parking_lines`). -/
def parking_t_mark (lane : Lane) (idx : ℕ) : List Line :=
  let leg_length : ℚ := 1
  let pa := lane.lane_center_pts.pointAt (PARKING_SPOT_LENGTH * (1 + (idx : ℚ)))
  let lane_angle := pa.2
  let perp_angle := lane_angle.rotate_degs270
  let t_pt := pa.1.project_away (LANE_THICKNESS * (2 / 5)) perp_angle
  [⟨t_pt, t_pt.project_away leg_length perp_angle.opposite⟩,
   ⟨t_pt, t_pt.project_away leg_length lane_angle⟩,
   ⟨t_pt, t_pt.project_away leg_length lane_angle.opposite⟩]

/-- One iteration of the parking loop, with the panicking `dist_along` lookup
modelled as `Option`. -/
def parking_spot_lines (lane : Lane) (idx : ℕ) : Option (List Line) :=
  match lane.dist_along (PARKING_SPOT_LENGTH * (1 + (idx : ℚ))) with
  | none => none
  | some _ => some (parking_t_mark lane idx)

/-- The `for idx in 0..=num_spots` loop of `calculate_parking_lines`, pushing
the three T-mark segments for each spot index in order. -/
def parking_lines_loop (lane : Lane) : List ℕ → Option (List Line)
  | [] => some []
  | idx :: rest =>
    match parking_spot_lines lane idx with
    | none => none
    | some ls =>
      match parking_lines_loop lane rest with
      | none => none
      | some more => some (ls ++ more)

/-- `calculate_parking_lines`: T-marks for spot indices 0 through
`number_parking_spots` inclusive; an empty marking when there are no spots. -/
def calculate_parking_lines (lane : Lane) : Option Marking :=
  let num_spots := lane.number_parking_spots
  if 0 < num_spots then
    match parking_lines_loop lane (List.range (num_spots + 1)) with
    | none => none
    | some ls =>
      some { lines := ls, color := Colors.ParkingMarking,
             thickness := 1 / 4, round := false }
  else
    some { lines := [], color := Colors.ParkingMarking,
           thickness := 1 / 4, round := false }

/-- The dash starting at arc length `s` of the edge polyline: the segment
between the points at `s` and `s + dash_len` (the loop body of
`calculate_driving_lines`). -/
def dash_at (edge : PolyLine) (s : ℚ) : Line :=
  ⟨(edge.pointAt s).1, (edge.pointAt (s + 1)).1⟩

/-- The dash loop of `calculate_driving_lines`: starting 2 m in, emit a 1 m
dash and advance 3 m, stopping once the next dash would end at or beyond 2 m
from the end; the panicking `dist_along` lookups are modelled as `Option`. -/
def driving_lines_loop (edge : PolyLine) (start : ℚ) : Option (List Line) :=
  if start + 1 ≥ edge.length - 2 then some []
  else
    match edge.dist_along start with
    | none => none
    | some pa1 =>
      match edge.dist_along (start + 1) with
      | none => none
      | some pa2 =>
        match driving_lines_loop edge (start + 3) with
        | none => none
        | some rest => some (⟨pa1.1, pa2.1⟩ :: rest)
termination_by (⌈(edge.length - 3 - start) / 3⌉).toNat
decreasing_by
  have h1 : (edge.length - 3 - (start + 3)) / 3 = (edge.length - 3 - start) / 3 - 1 := by
    field_simp
    ring
  have h2 : (0 : ℚ) < (edge.length - 3 - start) / 3 := by
    apply div_pos
    · linarith
    · norm_num
  have h3 : 1 ≤ ⌈(edge.length - 3 - start) / 3⌉ := Int.ceil_pos.mpr h2
  rw [h1, Int.ceil_sub_one]
  omega

/-- `calculate_driving_lines`: no marking for the road's innermost lane
(offset index 0); otherwise dashed segments along the left-shifted edge
polyline (centerline reversed, then offset by half the lane thickness). The
outer `Option` models a panic, the inner one the source's `Option<Marking>`. -/
def calculate_driving_lines (lane : Lane) (parent : Road) : Option (Option Marking) :=
  if (parent.dir_and_offset lane.id).2 = 0 then some none
  else
    let center_pts := lane.lane_center_pts.reversed
    let lane_edge_pts := center_pts.shift_blindly (LANE_THICKNESS / 2)
    match driving_lines_loop lane_edge_pts 2 with
    | none => none
    | some lines =>
      some (some { lines := lines, color := Colors.DrivingLaneMarking,
                   thickness := 1 / 4, round := false })

/-- `calculate_stop_sign_line`: skip priority lanes; otherwise a perpendicular
segment at `length - 2 * LANE_THICKNESS` when the safe lookup succeeds. The
outer `Option` models the panic on a missing `stop_signs` entry, the inner one
the source's `Option<Marking>`. -/
def calculate_stop_sign_line (lane : Lane) (control_map : ControlMap) :
    Option (Option Marking) :=
  match control_map.stop_signs lane.dst_i with
  | none => none
  | some ss =>
    if ss.is_priority_lane lane.id then some none
    else
      match lane.safe_dist_along (lane.length - 2 * LANE_THICKNESS) with
      | none => some none
      | some pa =>
        let pt2 := pa.1.project_away 1 pa.2
        some (some { lines := [perp_line ⟨pa.1, pt2⟩ LANE_THICKNESS],
                     color := Colors.StopSignMarking,
                     thickness := 9 / 20, round := true })

/-- `calculate_id_positions`: for driving lanes, the two label anchors at
`length - 2 * LANE_THICKNESS` and `2 * LANE_THICKNESS` via the safe lookup. -/
def calculate_id_positions (lane : Lane) : Option (List Pt2D) :=
  if !lane.is_driving then none
  else
    match lane.safe_dist_along (lane.length - 2 * LANE_THICKNESS) with
    | none => none
    | some pa1 =>
      match lane.safe_dist_along (2 * LANE_THICKNESS) with
      | none => none
      | some pa2 => some [pa1.1, pa2.1]

/-- The orientation marking block of `DrawLane::new`: one thick rounded
marking along the road's own centerline, only for the canonical lane. -/
def orientation_markings (lane : Lane) (road : Road) : List Marking :=
  if road.is_canonical_lane lane.id then
    [{ lines := road.center_pts.lines, color := Colors.RoadOrientation,
       thickness := BIG_ARROW_THICKNESS, round := true }]
  else []

/-- The `match lane.lane_type` block of `DrawLane::new`. -/
def type_markings (lane : Lane) (road : Road) : Option (List Marking) :=
  match lane.lane_type with
  | LaneType.Sidewalk => (calculate_sidewalk_lines lane).map (fun m => [m])
  | LaneType.Parking => (calculate_parking_lines lane).map (fun m => [m])
  | LaneType.Driving => (calculate_driving_lines lane road).map Option.toList
  | LaneType.Biking => some []

/-- The stop-line block of `DrawLane::new`: the stop sign table is consulted
only for driving lanes whose destination intersection has no traffic
signal. -/
def stop_markings (lane : Lane) (m : Map) (control_map : ControlMap) :
    Option (List Marking) :=
  if lane.is_driving && !(m.get_i lane.dst_i).has_traffic_signal then
    (calculate_stop_sign_line lane control_map).map Option.toList
  else some []

/-- The drawable lane artifact (`DrawLane`). -/
structure DrawLane where
  id : ℕ
  polygon : Polygon
  start_crossing : Line
  end_crossing : Line
  markings : List Marking
  draw_id_at : List Pt2D

/-- `DrawLane::new`: footprint, crossings, markings in source order
(orientation, then type-specific, then stop line) and label anchors; `none`
models a panic during the build. -/
def DrawLane.new (lane : Lane) (m : Map) (control_map : ControlMap) :
    Option DrawLane :=
  let road := m.get_r lane.parent
  let start := new_perp_line lane.first_line LANE_THICKNESS
  let end_ln := new_perp_line lane.last_line.reverse LANE_THICKNESS
  let polygon := lane.lane_center_pts.make_polygons_blindly LANE_THICKNESS
  match type_markings lane road with
  | none => none
  | some type_ms =>
    match stop_markings lane m control_map with
    | none => none
    | some stop_ms =>
      some { id := lane.id, polygon := polygon, start_crossing := start,
             end_crossing := end_ln,
             markings := orientation_markings lane road ++ type_ms ++ stop_ms,
             draw_id_at := (calculate_id_positions lane).getD [] }

/-- The default fill color keyed by lane type, as matched in
`DrawLane::draw`. -/
def lane_type_color (t : LaneType) : Colors :=
  match t with
  | LaneType.Driving => Colors.Road
  | LaneType.Parking => Colors.Parking
  | LaneType.Sidewalk => Colors.Sidewalk
  | LaneType.Biking => Colors.Biking

/-- The fill color computation at the top of `DrawLane::draw`: the caller
supplied color if any, else the per-type default, overridden by the broken
indicator when the lane is probably broken. -/
def draw_fill_color (opts_color : Option Colors) (l : Lane) : Colors :=
  match opts_color with
  | some c => c
  | none =>
    let dflt :=
      match l.lane_type with
      | LaneType.Driving => Colors.Road
      | LaneType.Parking => Colors.Parking
      | LaneType.Sidewalk => Colors.Sidewalk
      | LaneType.Biking => Colors.Biking
    if l.probably_broken then Colors.Broken else dflt

/-- The number of markings with a given color in a list. -/
def countColor (ms : List Marking) (c : Colors) : ℕ :=
  (ms.filter (fun m => m.color == c)).length

/-- The stop-line marking built by `calculate_stop_sign_line` from the point
and angle returned by the safe lookup. -/
def stop_line_mark (pa : Pt2D × Angle) : Marking :=
  { lines := [perp_line ⟨pa.1, pa.1.project_away 1 pa.2⟩ LANE_THICKNESS],
    color := Colors.StopSignMarking, thickness := 9 / 20, round := true }

/-- The left-shifted edge polyline a driving lane's dashes are drawn on:
centerline reversed, then offset by half the lane thickness. -/
def lane_edge_pts (lane : Lane) : PolyLine :=
  (lane.lane_center_pts.reversed).shift_blindly (LANE_THICKNESS / 2)

/-! Concrete inputs used by witnesses and counterexamples. -/

/-- A straight horizontal polyline of the given arc length, used as a concrete
test centerline. -/
def straightPoly (len : ℚ) : PolyLine where
  length := len
  pointAt := fun d => (⟨d, 0⟩, ⟨1, 0⟩)
  lines := [⟨⟨0, 0⟩, ⟨len, 0⟩⟩]

/-- A concrete lane of the given type and length on a straight centerline. -/
def mkLane (t : LaneType) (len : ℚ) : Lane where
  id := 0
  parent := 0
  lane_type := t
  lane_center_pts := straightPoly len
  src_i := 0
  dst_i := 1
  probably_broken := false

/-- A concrete road whose every lane has the given offset index and which may
or may not designate lane 0 as canonical. -/
def mkRoad (canonical : ℕ) (offset : ℕ) : Road where
  id := 0
  center_pts := straightPoly 40
  canonical_lane := canonical
  dir_and_offset := fun _ => (true, offset)

/-- A concrete map: every road is `r`, every intersection has the given
traffic-signal flag. -/
def mkMap (r : Road) (signal : Bool) : Map where
  get_r := fun _ => r
  get_i := fun _ => ⟨signal⟩

/-- A concrete control map with a stop sign at every intersection, every lane
having the given priority flag. -/
def mkControlMap (priority : Bool) : ControlMap where
  stop_signs := fun _ => some ⟨fun _ => priority⟩

/-- A concrete control map whose stop-sign table is empty. -/
def emptyControlMap : ControlMap where
  stop_signs := fun _ => none

/-! Characterization of the sidewalk tick loop. -/

lemma lane_thickness_pos : (0 : ℚ) < LANE_THICKNESS := by norm_num [LANE_THICKNESS]

lemma sidewalk_lines_loop_spec (lane : Lane) : ∀ (n : ℕ) (d : ℚ), 0 ≤ d →
    (⌈(lane.length - LANE_THICKNESS - d) / LANE_THICKNESS⌉).toNat = n →
    sidewalk_lines_loop lane d =
      some ((List.range n).map
        (fun k : ℕ => sidewalk_tick lane (d + LANE_THICKNESS * (k : ℚ)))) := by
  intro n
  induction n with
  | zero =>
    intro d _ hn
    have hle : ⌈(lane.length - LANE_THICKNESS - d) / LANE_THICKNESS⌉ ≤ 0 := by omega
    have hx : (lane.length - LANE_THICKNESS - d) / LANE_THICKNESS ≤ 0 := by
      exact_mod_cast Int.ceil_le.mp hle
    have hnot : ¬ d < lane.length - LANE_THICKNESS := by
      intro hc
      have : (0:ℚ) < (lane.length - LANE_THICKNESS - d) / LANE_THICKNESS :=
        div_pos (by linarith) lane_thickness_pos
      linarith
    rw [sidewalk_lines_loop]
    simp [hnot]
  | succ n ih =>
    intro d hd hn
    have hceil : ⌈(lane.length - LANE_THICKNESS - d) / LANE_THICKNESS⌉ = n + 1 := by omega
    have hpos : (0:ℚ) < (lane.length - LANE_THICKNESS - d) / LANE_THICKNESS := by
      rw [← Int.ceil_pos, hceil]
      positivity
    have hnum : (0:ℚ) < lane.length - LANE_THICKNESS - d := by
      have hm := mul_pos hpos lane_thickness_pos
      rw [div_mul_cancel₀ _ (ne_of_gt lane_thickness_pos)] at hm
      linarith
    have hlt : d < lane.length - LANE_THICKNESS := by linarith
    have hdle : d ≤ lane.lane_center_pts.length := by
      have : lane.length = lane.lane_center_pts.length := rfl
      have ht := lane_thickness_pos
      linarith [this ▸ hlt]
    have hdist : lane.dist_along d = some (lane.lane_center_pts.pointAt d) := by
      unfold Lane.dist_along PolyLine.dist_along
      rw [if_pos ⟨hd, hdle⟩]
    have hrec : sidewalk_lines_loop lane (d + LANE_THICKNESS) =
        some ((List.range n).map
          (fun k : ℕ => sidewalk_tick lane ((d + LANE_THICKNESS) + LANE_THICKNESS * (k : ℚ)))) := by
      apply ih (d + LANE_THICKNESS) (by linarith [lane_thickness_pos])
      have h1 : (lane.length - LANE_THICKNESS - (d + LANE_THICKNESS)) / LANE_THICKNESS
          = (lane.length - LANE_THICKNESS - d) / LANE_THICKNESS - 1 := by
        have hne : LANE_THICKNESS ≠ 0 := ne_of_gt lane_thickness_pos
        field_simp
        ring
      rw [h1, Int.ceil_sub_one, hceil]
      omega
    rw [sidewalk_lines_loop]
    simp only [if_pos hlt, hdist, hrec]
    congr 1
    rw [List.range_succ_eq_map, List.map_cons, List.map_map]
    congr 1
    · show sidewalk_tick lane d = sidewalk_tick lane (d + LANE_THICKNESS * ((0:ℕ) : ℚ))
      norm_num
    · apply List.map_congr_left
      intro a _
      simp only [Function.comp]
      congr 1
      push_cast
      ring

lemma calculate_sidewalk_lines_spec (lane : Lane) :
    calculate_sidewalk_lines lane =
      some { lines :=
               (List.range ((⌈(lane.length - 2 * LANE_THICKNESS) / LANE_THICKNESS⌉).toNat)).map
                 (fun k : ℕ => sidewalk_tick lane (LANE_THICKNESS + LANE_THICKNESS * (k : ℚ))),
             color := Colors.SidewalkMarking, thickness := 1 / 4, round := false } := by
  have hmeas : (⌈(lane.length - LANE_THICKNESS - LANE_THICKNESS) / LANE_THICKNESS⌉).toNat
      = (⌈(lane.length - 2 * LANE_THICKNESS) / LANE_THICKNESS⌉).toNat := by
    have h2 : lane.length - LANE_THICKNESS - LANE_THICKNESS
        = lane.length - 2 * LANE_THICKNESS := by ring
    rw [h2]
  have h := sidewalk_lines_loop_spec lane
    ((⌈(lane.length - 2 * LANE_THICKNESS) / LANE_THICKNESS⌉).toNat) LANE_THICKNESS
    (le_of_lt lane_thickness_pos) hmeas
  unfold calculate_sidewalk_lines
  rw [h]

/-! Characterization of the driving dash loop. -/

lemma driving_lines_loop_spec (edge : PolyLine) : ∀ (n : ℕ) (s : ℚ), 0 ≤ s →
    (⌈(edge.length - 3 - s) / 3⌉).toNat = n →
    driving_lines_loop edge s =
      some ((List.range n).map (fun k : ℕ => dash_at edge (s + 3 * (k : ℚ)))) := by
  intro n
  induction n with
  | zero =>
    intro s _ hn
    have hle : ⌈(edge.length - 3 - s) / 3⌉ ≤ 0 := by omega
    have hx : (edge.length - 3 - s) / 3 ≤ 0 := by exact_mod_cast Int.ceil_le.mp hle
    have hnum : edge.length - 3 - s ≤ 0 := by
      by_contra hc
      push_neg at hc
      have : (0:ℚ) < (edge.length - 3 - s) / 3 := div_pos hc (by norm_num)
      linarith
    have hcond : s + 1 ≥ edge.length - 2 := by linarith
    rw [driving_lines_loop]
    simp [hcond]
  | succ n ih =>
    intro s hs hn
    have hceil : ⌈(edge.length - 3 - s) / 3⌉ = n + 1 := by omega
    have hpos : (0:ℚ) < (edge.length - 3 - s) / 3 := by
      rw [← Int.ceil_pos, hceil]
      positivity
    have hnum : (0:ℚ) < edge.length - 3 - s := by
      have hm := mul_pos hpos (show (0:ℚ) < 3 by norm_num)
      rw [div_mul_cancel₀ _ (show (3:ℚ) ≠ 0 by norm_num)] at hm
      linarith
    have hcond : ¬ (s + 1 ≥ edge.length - 2) := by
      intro hc
      linarith
    have hd1 : edge.dist_along s = some (edge.pointAt s) := by
      unfold PolyLine.dist_along
      rw [if_pos ⟨hs, by linarith⟩]
    have hd2 : edge.dist_along (s + 1) = some (edge.pointAt (s + 1)) := by
      unfold PolyLine.dist_along
      rw [if_pos ⟨by linarith, by linarith⟩]
    have hrec : driving_lines_loop edge (s + 3) =
        some ((List.range n).map (fun k : ℕ => dash_at edge ((s + 3) + 3 * (k : ℚ)))) := by
      apply ih (s + 3) (by linarith)
      have h1 : (edge.length - 3 - (s + 3)) / 3 = (edge.length - 3 - s) / 3 - 1 := by
        field_simp
        ring
      rw [h1, Int.ceil_sub_one, hceil]
      omega
    rw [driving_lines_loop]
    simp only [if_neg hcond, hd1, hd2, hrec]
    congr 1
    rw [List.range_succ_eq_map, List.map_cons, List.map_map]
    congr 1
    · show dash_at edge s = dash_at edge (s + 3 * ((0:ℕ) : ℚ))
      norm_num
    · apply List.map_congr_left
      intro a _
      simp only [Function.comp]
      congr 1
      push_cast
      ring

lemma calculate_driving_lines_offset0 (lane : Lane) (parent : Road)
    (h : (parent.dir_and_offset lane.id).2 = 0) :
    calculate_driving_lines lane parent = some none := by
  unfold calculate_driving_lines
  rw [if_pos h]

lemma calculate_driving_lines_spec (lane : Lane) (parent : Road)
    (h : (parent.dir_and_offset lane.id).2 ≠ 0) :
    calculate_driving_lines lane parent =
      some (some { lines :=
                     (List.range ((⌈((lane_edge_pts lane).length - 5) / 3⌉).toNat)).map
                       (fun k : ℕ => dash_at (lane_edge_pts lane) (2 + 3 * (k : ℚ))),
                   color := Colors.DrivingLaneMarking,
                   thickness := 1 / 4, round := false }) := by
  have hmeas : (⌈((lane_edge_pts lane).length - 3 - 2) / 3⌉).toNat
      = (⌈((lane_edge_pts lane).length - 5) / 3⌉).toNat := by
    have h2 : (lane_edge_pts lane).length - 3 - 2 = (lane_edge_pts lane).length - 5 := by
      ring
    rw [h2]
  have hloop := driving_lines_loop_spec (lane_edge_pts lane)
    ((⌈((lane_edge_pts lane).length - 5) / 3⌉).toNat) 2 (by norm_num) hmeas
  simp only [calculate_driving_lines]
  rw [if_neg h]
  have hedge : (lane.lane_center_pts.reversed).shift_blindly (LANE_THICKNESS / 2)
      = lane_edge_pts lane := rfl
  rw [hedge, hloop]

/-! Characterization of the parking loop. -/

lemma parking_spot_lines_eq (lane : Lane) (idx : ℕ)
    (h : 0 ≤ PARKING_SPOT_LENGTH * (1 + (idx : ℚ)) ∧
         PARKING_SPOT_LENGTH * (1 + (idx : ℚ)) ≤ lane.lane_center_pts.length) :
    parking_spot_lines lane idx = some (parking_t_mark lane idx) := by
  unfold parking_spot_lines Lane.dist_along PolyLine.dist_along
  rw [if_pos h]

lemma parking_lines_loop_spec (lane : Lane) : ∀ (l : List ℕ),
    (∀ idx ∈ l, 0 ≤ PARKING_SPOT_LENGTH * (1 + (idx : ℚ)) ∧
        PARKING_SPOT_LENGTH * (1 + (idx : ℚ)) ≤ lane.lane_center_pts.length) →
    parking_lines_loop lane l = some ((l.map (parking_t_mark lane)).flatten) := by
  intro l
  induction l with
  | nil => intro _; rfl
  | cons idx rest ih =>
    intro h
    have h1 := parking_spot_lines_eq lane idx (h idx (by simp))
    have h2 := ih (fun a ha => h a (by simp [ha]))
    rw [parking_lines_loop, h1, h2]
    simp

lemma number_parking_spots_bound (lane : Lane) (hn : 0 < lane.number_parking_spots) :
    ∀ idx ∈ List.range (lane.number_parking_spots + 1),
      0 ≤ PARKING_SPOT_LENGTH * (1 + (idx : ℚ)) ∧
      PARKING_SPOT_LENGTH * (1 + (idx : ℚ)) ≤ lane.lane_center_pts.length := by
  intro idx hidx
  have hmem : idx < lane.number_parking_spots + 1 := List.mem_range.mp hidx
  have hfl : lane.number_parking_spots = (⌊lane.length / PARKING_SPOT_LENGTH⌋ - 1).toNat := rfl
  have hF : 2 ≤ ⌊lane.length / PARKING_SPOT_LENGTH⌋ := by omega
  have hidxF : (idx : ℤ) + 1 ≤ ⌊lane.length / PARKING_SPOT_LENGTH⌋ := by omega
  have hidxQ : (idx : ℚ) + 1 ≤ ((⌊lane.length / PARKING_SPOT_LENGTH⌋ : ℤ) : ℚ) := by
    exact_mod_cast hidxF
  have hfloor : ((⌊lane.length / PARKING_SPOT_LENGTH⌋ : ℤ) : ℚ)
      ≤ lane.length / PARKING_SPOT_LENGTH := Int.floor_le _
  have hlen : lane.length = lane.lane_center_pts.length := rfl
  constructor
  · have : (0:ℚ) ≤ 1 + (idx : ℚ) := by positivity
    simp only [PARKING_SPOT_LENGTH]
    positivity
  · have hq : 1 + (idx : ℚ) ≤ lane.length / PARKING_SPOT_LENGTH := by
      linarith [hidxQ, hfloor]
    have h8 : (0:ℚ) < PARKING_SPOT_LENGTH := by norm_num [PARKING_SPOT_LENGTH]
    have hmul := (le_div_iff₀ h8).mp hq
    calc PARKING_SPOT_LENGTH * (1 + (idx : ℚ)) = (1 + (idx : ℚ)) * PARKING_SPOT_LENGTH := by ring
    _ ≤ lane.length := hmul
    _ = lane.lane_center_pts.length := hlen

lemma calculate_parking_lines_spec (lane : Lane) :
    calculate_parking_lines lane =
      some { lines := if 0 < lane.number_parking_spots then
                        ((List.range (lane.number_parking_spots + 1)).map
                          (parking_t_mark lane)).flatten
                      else [],
             color := Colors.ParkingMarking, thickness := 1 / 4, round := false } := by
  by_cases h : 0 < lane.number_parking_spots
  · have hloop := parking_lines_loop_spec lane (List.range (lane.number_parking_spots + 1))
      (number_parking_spots_bound lane h)
    simp only [calculate_parking_lines]
    rw [if_pos h, hloop, if_pos h]
  · simp only [calculate_parking_lines]
    rw [if_neg h, if_neg h]

/-! Characterization of the stop line and the label anchors. -/

lemma safe_dist_along_eq (lane : Lane) (d : ℚ) :
    lane.safe_dist_along d =
      if 0 ≤ d ∧ d ≤ lane.length then some (lane.lane_center_pts.pointAt d) else none := rfl

lemma safe_dist_along_isSome_iff (lane : Lane) (d : ℚ) :
    (lane.safe_dist_along d).isSome ↔ (0 ≤ d ∧ d ≤ lane.length) := by
  rw [safe_dist_along_eq]
  split_ifs with h
  · simp [h]
  · simp [h]

lemma calculate_stop_sign_line_eq (lane : Lane) (cm : ControlMap) (ss : ControlStopSign)
    (h : cm.stop_signs lane.dst_i = some ss) :
    calculate_stop_sign_line lane cm =
      some (if ss.is_priority_lane lane.id then none
            else (lane.safe_dist_along (lane.length - 2 * LANE_THICKNESS)).map
                   stop_line_mark) := by
  unfold calculate_stop_sign_line
  rw [h]
  by_cases hp : ss.is_priority_lane lane.id
  · simp [hp]
  · simp only [hp, Bool.false_eq_true, if_false, if_neg]
    cases hs : lane.safe_dist_along (lane.length - 2 * LANE_THICKNESS) with
    | none => simp
    | some pa => simp [stop_line_mark]

lemma calculate_stop_sign_line_none (lane : Lane) (cm : ControlMap)
    (h : cm.stop_signs lane.dst_i = none) :
    calculate_stop_sign_line lane cm = none := by
  unfold calculate_stop_sign_line
  rw [h]

lemma calculate_stop_sign_line_isSome_iff (lane : Lane) (cm : ControlMap) :
    (calculate_stop_sign_line lane cm).isSome ↔ (cm.stop_signs lane.dst_i).isSome := by
  cases h : cm.stop_signs lane.dst_i with
  | none => simp [calculate_stop_sign_line_none lane cm h]
  | some ss =>
    rw [calculate_stop_sign_line_eq lane cm ss h]
    simp

/-! Structure of the marking list built by the drawable lane builder. -/

lemma countColor_append (a b : List Marking) (c : Colors) :
    countColor (a ++ b) c = countColor a c + countColor b c := by
  simp [countColor, List.filter_append]

lemma countColor_eq_zero (ms : List Marking) (c : Colors)
    (h : ∀ mk ∈ ms, mk.color ≠ c) : countColor ms c = 0 := by
  simp only [countColor, List.length_eq_zero, List.filter_eq_nil_iff]
  intro mk hmk
  simp [h mk hmk]

lemma countColor_orientation_self (lane : Lane) (road : Road) :
    countColor (orientation_markings lane road) Colors.RoadOrientation =
      if road.is_canonical_lane lane.id then 1 else 0 := by
  unfold orientation_markings
  split_ifs with h
  · simp [countColor]
  · simp [countColor]

lemma countColor_orientation_other (lane : Lane) (road : Road) (c : Colors)
    (hc : c ≠ Colors.RoadOrientation) :
    countColor (orientation_markings lane road) c = 0 := by
  apply countColor_eq_zero
  unfold orientation_markings
  split_ifs with h
  · intro mk hmk
    simp at hmk
    rw [hmk]
    exact fun hcontra => hc (by rw [← hcontra])
  · intro mk hmk
    simp at hmk

lemma type_markings_isSome (lane : Lane) (road : Road) :
    (type_markings lane road).isSome := by
  unfold type_markings
  cases htype : lane.lane_type with
  | Sidewalk => rw [calculate_sidewalk_lines_spec]; simp
  | Parking => rw [calculate_parking_lines_spec]; simp
  | Driving =>
    by_cases h : (road.dir_and_offset lane.id).2 = 0
    · rw [calculate_driving_lines_offset0 lane road h]; simp
    · rw [calculate_driving_lines_spec lane road h]; simp
  | Biking => simp

lemma type_markings_colors (lane : Lane) (road : Road) (tms : List Marking)
    (h : type_markings lane road = some tms) :
    ∀ mk ∈ tms, mk.color = Colors.SidewalkMarking ∨ mk.color = Colors.ParkingMarking ∨
      mk.color = Colors.DrivingLaneMarking := by
  unfold type_markings at h
  cases htype : lane.lane_type <;> rw [htype] at h
  case Sidewalk =>
    rw [calculate_sidewalk_lines_spec] at h
    simp only [Option.map_some', Option.some_inj] at h
    subst h
    intro mk hmk
    simp only [List.mem_singleton] at hmk
    subst hmk
    left
    rfl
  case Parking =>
    rw [calculate_parking_lines_spec] at h
    simp only [Option.map_some', Option.some_inj] at h
    subst h
    intro mk hmk
    simp only [List.mem_singleton] at hmk
    subst hmk
    right
    left
    rfl
  case Driving =>
    by_cases hoff : (road.dir_and_offset lane.id).2 = 0
    · rw [calculate_driving_lines_offset0 lane road hoff] at h
      simp only [Option.map_some', Option.some_inj] at h
      subst h
      intro mk hmk
      simp at hmk
    · rw [calculate_driving_lines_spec lane road hoff] at h
      simp only [Option.map_some', Option.some_inj] at h
      subst h
      intro mk hmk
      simp only [Option.toList_some, List.mem_singleton] at hmk
      subst hmk
      right
      right
      rfl
  case Biking =>
    simp only [Option.some_inj] at h
    subst h
    intro mk hmk
    simp at hmk

lemma countColor_type_markings (lane : Lane) (road : Road) (tms : List Marking)
    (h : type_markings lane road = some tms) (c : Colors)
    (h1 : c ≠ Colors.SidewalkMarking) (h2 : c ≠ Colors.ParkingMarking)
    (h3 : c ≠ Colors.DrivingLaneMarking) : countColor tms c = 0 := by
  apply countColor_eq_zero
  intro mk hmk
  rcases type_markings_colors lane road tms h mk hmk with hc | hc | hc <;>
    rw [hc] <;> intro hcontra <;> [exact h1 hcontra.symm; exact h2 hcontra.symm;
      exact h3 hcontra.symm]

lemma stop_markings_cond_false (lane : Lane) (m : Map) (cm : ControlMap)
    (h : (lane.is_driving && !(m.get_i lane.dst_i).has_traffic_signal) = false) :
    stop_markings lane m cm = some [] := by
  unfold stop_markings
  rw [h]
  simp

lemma stop_markings_cond_true (lane : Lane) (m : Map) (cm : ControlMap)
    (h : (lane.is_driving && !(m.get_i lane.dst_i).has_traffic_signal) = true) :
    stop_markings lane m cm = (calculate_stop_sign_line lane cm).map Option.toList := by
  unfold stop_markings
  rw [h]
  simp

lemma stop_markings_isSome_iff (lane : Lane) (m : Map) (cm : ControlMap) :
    (stop_markings lane m cm).isSome ↔
      ((lane.is_driving && !(m.get_i lane.dst_i).has_traffic_signal) = false ∨
        (cm.stop_signs lane.dst_i).isSome) := by
  cases hc : lane.is_driving && !(m.get_i lane.dst_i).has_traffic_signal with
  | false => simp [stop_markings_cond_false lane m cm hc]
  | true =>
    rw [stop_markings_cond_true lane m cm hc]
    simp [calculate_stop_sign_line_isSome_iff]

lemma stop_markings_colors (lane : Lane) (m : Map) (cm : ControlMap) (sms : List Marking)
    (h : stop_markings lane m cm = some sms) :
    ∀ mk ∈ sms, mk.color = Colors.StopSignMarking := by
  cases hc : lane.is_driving && !(m.get_i lane.dst_i).has_traffic_signal with
  | false =>
    rw [stop_markings_cond_false lane m cm hc] at h
    simp only [Option.some_inj] at h
    subst h
    intro mk hmk
    simp at hmk
  | true =>
    rw [stop_markings_cond_true lane m cm hc] at h
    cases hs : calculate_stop_sign_line lane cm with
    | none => rw [hs] at h; simp at h
    | some inner =>
      rw [hs] at h
      simp only [Option.map_some', Option.some_inj] at h
      subst h
      cases hinner : inner with
      | none => intro mk hmk; simp [hinner] at hmk
      | some mk0 =>
        intro mk hmk
        simp only [hinner, Option.toList_some, List.mem_singleton] at hmk
        subst hmk
        cases hss : cm.stop_signs lane.dst_i with
        | none => rw [calculate_stop_sign_line_none lane cm hss] at hs; exact absurd hs (by simp)
        | some ss =>
          rw [calculate_stop_sign_line_eq lane cm ss hss] at hs
          simp only [Option.some_inj] at hs
          rw [hinner] at hs
          by_cases hp : ss.is_priority_lane lane.id
          · simp [hp] at hs
          · simp only [hp, if_neg, Bool.false_eq_true, if_false] at hs
            cases hsafe : lane.safe_dist_along (lane.length - 2 * LANE_THICKNESS) with
            | none => rw [hsafe] at hs; simp at hs
            | some pa =>
              rw [hsafe] at hs
              simp only [Option.map_some', Option.some_inj] at hs
              rw [← hs]
              rfl

lemma DrawLane.new_eq (lane : Lane) (m : Map) (cm : ControlMap)
    (tms sms : List Marking)
    (h1 : type_markings lane (m.get_r lane.parent) = some tms)
    (h2 : stop_markings lane m cm = some sms) :
    DrawLane.new lane m cm =
      some { id := lane.id,
             polygon := lane.lane_center_pts.make_polygons_blindly LANE_THICKNESS,
             start_crossing := new_perp_line lane.first_line LANE_THICKNESS,
             end_crossing := new_perp_line lane.last_line.reverse LANE_THICKNESS,
             markings := orientation_markings lane (m.get_r lane.parent) ++ tms ++ sms,
             draw_id_at := (calculate_id_positions lane).getD [] } := by
  simp only [DrawLane.new]
  rw [h1, h2]

lemma DrawLane.new_inv (lane : Lane) (m : Map) (cm : ControlMap) (dl : DrawLane)
    (h : DrawLane.new lane m cm = some dl) :
    ∃ tms sms, type_markings lane (m.get_r lane.parent) = some tms ∧
      stop_markings lane m cm = some sms ∧
      dl.markings = orientation_markings lane (m.get_r lane.parent) ++ tms ++ sms := by
  simp only [DrawLane.new] at h
  cases h1 : type_markings lane (m.get_r lane.parent) with
  | none => rw [h1] at h; simp at h
  | some tms =>
    rw [h1] at h
    cases h2 : stop_markings lane m cm with
    | none => rw [h2] at h; simp at h
    | some sms =>
      rw [h2] at h
      simp only [Option.some_inj] at h
      exact ⟨tms, sms, rfl, rfl, by rw [← h]⟩

lemma DrawLane.new_isSome_iff (lane : Lane) (m : Map) (cm : ControlMap) :
    (DrawLane.new lane m cm).isSome ↔ (stop_markings lane m cm).isSome := by
  obtain ⟨tms, htms⟩ :=
    Option.isSome_iff_exists.mp (type_markings_isSome lane (m.get_r lane.parent))
  cases h2 : stop_markings lane m cm with
  | none =>
    simp only [DrawLane.new]
    rw [htms, h2]
    simp
  | some sms =>
    rw [DrawLane.new_eq lane m cm tms sms htms h2]
    simp

/-! The claims. -/

/-- C1 (amended): a sidewalk lane of arc length L produces exactly
`max 0 ⌈(L - 2t)/t⌉` perpendicular tick segments (the claim's floor formula
undercounts by one whenever `(L - 2t)/t` is not an integer), placed at arc
lengths t, 2t, 3t, … strictly less than `L - t`, so consecutive ticks are
exactly t apart and none lies within t of either end. -/
theorem c1_sidewalk_tick_characterization (lane : Lane)
    (_hty : lane.lane_type = LaneType.Sidewalk) :
    calculate_sidewalk_lines lane =
      some { lines :=
               (List.range ((⌈(lane.length - 2 * LANE_THICKNESS) / LANE_THICKNESS⌉).toNat)).map
                 (fun k : ℕ => sidewalk_tick lane (LANE_THICKNESS * ((k : ℚ) + 1))),
             color := Colors.SidewalkMarking, thickness := 1 / 4, round := false }
    ∧ ∀ k : ℕ, k < (⌈(lane.length - 2 * LANE_THICKNESS) / LANE_THICKNESS⌉).toNat →
        LANE_THICKNESS ≤ LANE_THICKNESS * ((k : ℚ) + 1) ∧
        LANE_THICKNESS * ((k : ℚ) + 1) < lane.length - LANE_THICKNESS := by
  constructor
  · have hmap : (List.range ((⌈(lane.length - 2 * LANE_THICKNESS) / LANE_THICKNESS⌉).toNat)).map
        (fun k : ℕ => sidewalk_tick lane (LANE_THICKNESS + LANE_THICKNESS * (k : ℚ)))
        = (List.range ((⌈(lane.length - 2 * LANE_THICKNESS) / LANE_THICKNESS⌉).toNat)).map
        (fun k : ℕ => sidewalk_tick lane (LANE_THICKNESS * ((k : ℚ) + 1))) := by
      apply List.map_congr_left
      intro a _
      congr 1
      ring
    rw [calculate_sidewalk_lines_spec, hmap]
  · intro k hk
    have hkz : (k : ℤ) < ⌈(lane.length - 2 * LANE_THICKNESS) / LANE_THICKNESS⌉ := by omega
    have hkq : (k : ℚ) < (lane.length - 2 * LANE_THICKNESS) / LANE_THICKNESS :=
      Int.lt_ceil.mp hkz
    have hmul : (k : ℚ) * LANE_THICKNESS < lane.length - 2 * LANE_THICKNESS :=
      (lt_div_iff₀ lane_thickness_pos).mp hkq
    have hk0 : (0:ℚ) ≤ (k : ℚ) * LANE_THICKNESS :=
      mul_nonneg (Nat.cast_nonneg k) (le_of_lt lane_thickness_pos)
    constructor
    · nlinarith [lane_thickness_pos]
    · nlinarith [lane_thickness_pos]

/-- C1 counterexample: on a straight sidewalk lane of length 11 m (with
t = 2.5 m) the code produces 3 ticks, while the claim's formula
`⌊(L - 2t)/t⌋ = ⌊2.4⌋` predicts 2. -/
theorem c1_floor_count_counterexample :
    (calculate_sidewalk_lines (mkLane LaneType.Sidewalk 11)).map
      (fun mk => (mk.lines.length : ℤ)) = some 3 ∧
    ⌊((mkLane LaneType.Sidewalk 11).length - 2 * LANE_THICKNESS) / LANE_THICKNESS⌋ = 2 ∧
    (3 : ℤ) ≠ 2 := by
  have harg : ((mkLane LaneType.Sidewalk 11).length - 2 * LANE_THICKNESS) / LANE_THICKNESS
      = 12 / 5 := by
    norm_num [mkLane, straightPoly, Lane.length, LANE_THICKNESS]
  refine ⟨?_, ?_, by norm_num⟩
  · rw [calculate_sidewalk_lines_spec]
    simp only [Option.map_some', Option.some_inj, List.length_map, List.length_range]
    rw [harg]
    have hc : ⌈(12 / 5 : ℚ)⌉ = 3 := by
      rw [Int.ceil_eq_iff] <;> norm_num
    rw [hc]
    rfl
  · rw [harg]
    rw [Int.floor_eq_iff] <;> norm_num

/-- C1 witness: the amended count at the same concrete lane: 3 ticks. -/
theorem c1_sidewalk_tick_witness :
    (calculate_sidewalk_lines (mkLane LaneType.Sidewalk 11)).map
      (fun mk => mk.lines.length) = some 3 := by
  have h := (c1_sidewalk_tick_characterization (mkLane LaneType.Sidewalk 11) rfl).1
  rw [h]
  simp only [Option.map_some', Option.some_inj, List.length_map, List.length_range]
  have harg : ((mkLane LaneType.Sidewalk 11).length - 2 * LANE_THICKNESS) / LANE_THICKNESS
      = 12 / 5 := by
    norm_num [mkLane, straightPoly, Lane.length, LANE_THICKNESS]
  rw [harg]
  have hc : ⌈(12 / 5 : ℚ)⌉ = 3 := by
    rw [Int.ceil_eq_iff] <;> norm_num
  rw [hc]
  rfl

lemma calculate_id_positions_nondriving (lane : Lane) (h : lane.is_driving = false) :
    calculate_id_positions lane = none := by
  simp [calculate_id_positions, h]

lemma calculate_id_positions_long (lane : Lane) (h : lane.is_driving = true)
    (hlen : 2 * LANE_THICKNESS ≤ lane.length) :
    calculate_id_positions lane =
      some [(lane.lane_center_pts.pointAt (lane.length - 2 * LANE_THICKNESS)).1,
            (lane.lane_center_pts.pointAt (2 * LANE_THICKNESS)).1] := by
  have ht := lane_thickness_pos
  have h1 : lane.safe_dist_along (lane.length - 2 * LANE_THICKNESS)
      = some (lane.lane_center_pts.pointAt (lane.length - 2 * LANE_THICKNESS)) := by
    rw [safe_dist_along_eq, if_pos ⟨by linarith, by linarith⟩]
  have h2 : lane.safe_dist_along (2 * LANE_THICKNESS)
      = some (lane.lane_center_pts.pointAt (2 * LANE_THICKNESS)) := by
    rw [safe_dist_along_eq, if_pos ⟨by linarith, hlen⟩]
  simp [calculate_id_positions, h, h1, h2]

lemma calculate_id_positions_short (lane : Lane) (h : lane.is_driving = true)
    (hlen : lane.length < 2 * LANE_THICKNESS) :
    calculate_id_positions lane = none := by
  have ht := lane_thickness_pos
  have h1 : lane.safe_dist_along (lane.length - 2 * LANE_THICKNESS) = none := by
    rw [safe_dist_along_eq, if_neg]
    rintro ⟨ha, _⟩
    linarith
  simp [calculate_id_positions, h, h1]

/-- C2 (amended): the label anchor calculation uses the safe lookup at
`L - 2t` and at `2t`; it returns the two anchors whenever both lookups
succeed, which happens exactly when `2t ≤ L`, and returns no anchors (without
failing) exactly when the lane is shorter than `2t` — not `4t` as claimed;
non-driving lanes get no anchors. -/
theorem c2_label_anchor_characterization (lane : Lane) :
    (lane.is_driving = false → calculate_id_positions lane = none) ∧
    (lane.is_driving = true →
      (2 * LANE_THICKNESS ≤ lane.length →
        calculate_id_positions lane =
          some [(lane.lane_center_pts.pointAt (lane.length - 2 * LANE_THICKNESS)).1,
                (lane.lane_center_pts.pointAt (2 * LANE_THICKNESS)).1]) ∧
      (lane.length < 2 * LANE_THICKNESS → calculate_id_positions lane = none)) :=
  ⟨calculate_id_positions_nondriving lane,
   fun h => ⟨calculate_id_positions_long lane h, calculate_id_positions_short lane h⟩⟩

/-- C2 counterexample: a straight driving lane of length 7.5 m is shorter
than `4t = 10` m, yet the calculation returns two anchors, refuting "zero
anchors exactly when the lane is shorter than 4×thickness". -/
theorem c2_four_thickness_counterexample :
    ((calculate_id_positions (mkLane LaneType.Driving (15 / 2))).getD []).length = 2 ∧
    (mkLane LaneType.Driving (15 / 2)).length < 4 * LANE_THICKNESS := by
  have h := calculate_id_positions_long (mkLane LaneType.Driving (15 / 2)) rfl
    (by norm_num [mkLane, straightPoly, Lane.length, LANE_THICKNESS])
  rw [h]
  constructor
  · rfl
  · norm_num [mkLane, straightPoly, Lane.length, LANE_THICKNESS]

/-- C2 witness: the amended characterization applied to concrete lanes: a
7.5 m driving lane (longer than 2t = 5 m) gets its two anchors, a biking lane
gets none. -/
theorem c2_label_anchor_witness :
    (calculate_id_positions (mkLane LaneType.Driving (15 / 2))).isSome = true ∧
    calculate_id_positions (mkLane LaneType.Biking 40) = none := by
  constructor
  · have h := ((c2_label_anchor_characterization (mkLane LaneType.Driving (15 / 2))).2 rfl).1
      (by norm_num [mkLane, straightPoly, Lane.length, LANE_THICKNESS])
    rw [h]
    rfl
  · exact (c2_label_anchor_characterization (mkLane LaneType.Biking 40)).1 rfl

/-- C4 (amended): a driving lane with offset index 0 never receives a
drivingDash marking; a driving lane with nonzero offset index always receives
exactly one drivingDash marking — its segment list is empty when the
left-shifted edge polyline is too short for one dash cycle, rather than the
marking being absent — whose dashes run along the left-shifted edge polyline
(centerline reversed, then offset by half the lane thickness), the k-th dash
spanning arc lengths `2 + 3k` to `3 + 3k`, stopping once the next dash would
end at or beyond 2 m from the end. -/
theorem c4_driving_dash_characterization (lane : Lane) (parent : Road) :
    ((parent.dir_and_offset lane.id).2 = 0 →
      calculate_driving_lines lane parent = some none) ∧
    ((parent.dir_and_offset lane.id).2 ≠ 0 →
      calculate_driving_lines lane parent =
        some (some { lines :=
                       (List.range ((⌈((lane_edge_pts lane).length - 5) / 3⌉).toNat)).map
                         (fun k : ℕ => dash_at (lane_edge_pts lane) (2 + 3 * (k : ℚ))),
                     color := Colors.DrivingLaneMarking,
                     thickness := 1 / 4, round := false })) :=
  ⟨calculate_driving_lines_offset0 lane parent, calculate_driving_lines_spec lane parent⟩

/-- C4 counterexample: a driving lane of length 4 m with offset index 1 is
below the minimum for one dash cycle, yet the code still produces a
drivingDash marking (with an empty segment list), refuting "receives one
unless its length is below the minimum needed for one dash cycle". -/
theorem c4_short_lane_counterexample :
    (calculate_driving_lines (mkLane LaneType.Driving 4) (mkRoad 99 1)).map
      (Option.map (fun mk => (mk.color, mk.lines))) =
      some (some (Colors.DrivingLaneMarking, [])) ∧
    ((mkRoad 99 1).dir_and_offset (mkLane LaneType.Driving 4).id).2 = 1 := by
  refine ⟨?_, rfl⟩
  rw [calculate_driving_lines_spec _ _ (by norm_num [mkRoad])]
  simp only [Option.map_some', Option.some_inj]
  have hlen : (lane_edge_pts (mkLane LaneType.Driving 4)).length = 4 := rfl
  rw [hlen]
  have harg : ((4:ℚ) - 5) / 3 = -1 / 3 := by norm_num
  rw [harg]
  have hc : ⌈(-1 / 3 : ℚ)⌉ = 0 := by
    rw [Int.ceil_eq_iff] <;> norm_num
  rw [hc]
  rfl

/-- C4 witness: the amended characterization at offset index 0: no dash
marking at all. -/
theorem c4_driving_dash_witness :
    calculate_driving_lines (mkLane LaneType.Driving 40) (mkRoad 99 0) = some none :=
  (c4_driving_dash_characterization (mkLane LaneType.Driving 40) (mkRoad 99 0)).1 rfl

/-- C10: for a driving lane with nonzero offset index the dash generator
always returns a drivingDash marking (never "no marking"); when the shifted
edge polyline is too short (length at most `dashLen + 2·dashSeparation = 5`)
the marking's segment list is empty but the marking is still produced, and the
dash walk is measured along the shifted edge polyline's own length. -/
theorem c10_dash_marking_total (lane : Lane) (parent : Road)
    (h : (parent.dir_and_offset lane.id).2 ≠ 0) :
    ∃ mk, calculate_driving_lines lane parent = some (some mk) ∧
      mk.color = Colors.DrivingLaneMarking ∧
      mk.lines.length = (⌈((lane_edge_pts lane).length - 5) / 3⌉).toNat ∧
      ((lane_edge_pts lane).length ≤ 5 → mk.lines = []) := by
  refine ⟨_, calculate_driving_lines_spec lane parent h, rfl, ?_, ?_⟩
  · simp
  · intro hle
    have hx : ((lane_edge_pts lane).length - 5) / 3 ≤ 0 :=
      div_nonpos_of_nonpos_of_nonneg (by linarith) (by norm_num)
    have hc : ⌈((lane_edge_pts lane).length - 5) / 3⌉ ≤ 0 := by
      exact_mod_cast Int.ceil_le.mpr (by exact_mod_cast hx)
    have h0 : (⌈((lane_edge_pts lane).length - 5) / 3⌉).toNat = 0 := by omega
    simp [h0]

/-- C10 witness: a 4 m driving lane at offset 1 still yields a (empty)
drivingDash marking. -/
theorem c10_dash_marking_witness :
    (calculate_driving_lines (mkLane LaneType.Driving 4) (mkRoad 99 1)).map
      (Option.map (fun mk => mk.lines.length)) = some (some 0) := by
  obtain ⟨mk, hmk, _, _, hempty⟩ := c10_dash_marking_total (mkLane LaneType.Driving 4)
    (mkRoad 99 1) (by norm_num [mkRoad])
  rw [hmk]
  simp only [Option.map_some', Option.some_inj]
  have : mk.lines = [] := hempty (by norm_num [lane_edge_pts, mkLane, straightPoly,
    PolyLine.shift_blindly, PolyLine.reversed])
  rw [this]
  rfl

/-- C5: for every lane of positive length no marking generation step ever
performs a failing arc-length lookup: the sidewalk tick loop, the parking
T-mark loop and the dash loop always complete (their modelled panics never
fire), and the stop-line step completes whenever the control table has the
entry it consults. -/
theorem c5_no_failing_lookup (lane : Lane) (road : Road) (cm : ControlMap)
    (_hpos : 0 < lane.length) :
    (calculate_sidewalk_lines lane).isSome = true ∧
    (calculate_parking_lines lane).isSome = true ∧
    (calculate_driving_lines lane road).isSome = true ∧
    ((cm.stop_signs lane.dst_i).isSome = true →
      (calculate_stop_sign_line lane cm).isSome = true) := by
  refine ⟨?_, ?_, ?_, ?_⟩
  · rw [calculate_sidewalk_lines_spec]
    rfl
  · rw [calculate_parking_lines_spec]
    rfl
  · by_cases h : (road.dir_and_offset lane.id).2 = 0
    · rw [calculate_driving_lines_offset0 lane road h]
      rfl
    · rw [calculate_driving_lines_spec lane road h]
      rfl
  · intro h
    rw [calculate_stop_sign_line_isSome_iff]
    exact h

/-- C5 witness: even a 1 m lane (too short for every marking) generates
without failure. -/
theorem c5_no_failing_lookup_witness :
    (calculate_sidewalk_lines (mkLane LaneType.Driving 1)).isSome = true ∧
    (calculate_driving_lines (mkLane LaneType.Driving 1) (mkRoad 99 1)).isSome = true := by
  have h := c5_no_failing_lookup (mkLane LaneType.Driving 1) (mkRoad 99 1)
    (mkControlMap false) (by norm_num [mkLane, straightPoly, Lane.length])
  exact ⟨h.1, h.2.2.1⟩

/-- C9: the fill color used by draw is the caller-supplied highlight color
when provided (regardless of lane type and broken flag), else the broken
indicator when the lane's broken flag is set, else the per-type default, and
the four per-type defaults are pairwise distinct. -/
theorem c9_fill_color_rule (oc : Option Colors) (l : Lane) :
    (∀ c, oc = some c → draw_fill_color oc l = c) ∧
    (oc = none → draw_fill_color oc l =
      if l.probably_broken then Colors.Broken else lane_type_color l.lane_type) ∧
    (∀ t1 t2 : LaneType, lane_type_color t1 = lane_type_color t2 → t1 = t2) := by
  refine ⟨?_, ?_, ?_⟩
  · intro c h
    subst h
    rfl
  · intro h
    subst h
    simp only [draw_fill_color]
    cases htype : l.lane_type <;> simp [htype, lane_type_color]
  · intro t1 t2 h
    cases t1 <;> cases t2 <;> first | rfl | exact absurd h (by decide)

/-- C9 witness: a supplied highlight color wins, and with no highlight the
default rule applies. -/
theorem c9_fill_color_witness :
    draw_fill_color (some Colors.Broken) (mkLane LaneType.Driving 40) = Colors.Broken ∧
    draw_fill_color none (mkLane LaneType.Sidewalk 40) =
      (if (mkLane LaneType.Sidewalk 40).probably_broken then Colors.Broken
       else lane_type_color (mkLane LaneType.Sidewalk 40).lane_type) :=
  ⟨(c9_fill_color_rule (some Colors.Broken) (mkLane LaneType.Driving 40)).1 Colors.Broken rfl,
   (c9_fill_color_rule none (mkLane LaneType.Sidewalk 40)).2.1 rfl⟩

/-- C6: a lane's artifact contains exactly one marking of the orientation
category when the lane is its road's canonical lane and zero otherwise; no
other generation rule emits an orientation-colored marking. -/
theorem c6_orientation_marking_count (lane : Lane) (m : Map) (cm : ControlMap)
    (dl : DrawLane) (hdl : DrawLane.new lane m cm = some dl) :
    countColor dl.markings Colors.RoadOrientation =
      if (m.get_r lane.parent).is_canonical_lane lane.id then 1 else 0 := by
  obtain ⟨tms, sms, htms, hsms, hmark⟩ := DrawLane.new_inv lane m cm dl hdl
  rw [hmark, countColor_append, countColor_append, countColor_orientation_self]
  rw [countColor_type_markings lane (m.get_r lane.parent) tms htms Colors.RoadOrientation
    (by decide) (by decide) (by decide)]
  rw [countColor_eq_zero sms Colors.RoadOrientation
    (fun mk hmk => by rw [stop_markings_colors lane m cm sms hsms mk hmk]; decide)]
  simp

/-- C6 witness: a canonical biking lane gets exactly one orientation
marking. -/
theorem c6_orientation_marking_witness :
    (DrawLane.new (mkLane LaneType.Biking 40) (mkMap (mkRoad 0 0) true)
      emptyControlMap).map
        (fun dl => countColor dl.markings Colors.RoadOrientation) = some 1 := by
  have htms : type_markings (mkLane LaneType.Biking 40)
      ((mkMap (mkRoad 0 0) true).get_r (mkLane LaneType.Biking 40).parent) = some [] := rfl
  have hsms : stop_markings (mkLane LaneType.Biking 40) (mkMap (mkRoad 0 0) true)
      emptyControlMap = some [] := rfl
  have hnew := DrawLane.new_eq (mkLane LaneType.Biking 40) (mkMap (mkRoad 0 0) true)
    emptyControlMap [] [] htms hsms
  rw [hnew, Option.map_some', Option.some_inj]
  rw [c6_orientation_marking_count (mkLane LaneType.Biking 40) (mkMap (mkRoad 0 0) true)
    emptyControlMap _ hnew]
  rfl

/-- C7: a parking lane always emits exactly one parking-category marking:
with zero computed spots its segment list is empty (the marking is still
emitted), and with n > 0 spots it holds exactly 3·(n+1) segments — one T-mark
(anchor offset 0.4·thickness along the rotated-270° perpendicular, three 1 m
legs along the opposite perpendicular, the tangent and its opposite) per spot
index 0 through n inclusive. -/
theorem c7_parking_marking (lane : Lane) (_hty : lane.lane_type = LaneType.Parking) :
    (calculate_parking_lines lane).isSome = true ∧
    ∀ mk, calculate_parking_lines lane = some mk →
      mk.color = Colors.ParkingMarking ∧
      (lane.number_parking_spots = 0 → mk.lines = []) ∧
      (0 < lane.number_parking_spots →
        mk.lines = ((List.range (lane.number_parking_spots + 1)).map
          (parking_t_mark lane)).flatten ∧
        mk.lines.length = 3 * (lane.number_parking_spots + 1)) := by
  have hspec := calculate_parking_lines_spec lane
  constructor
  · rw [hspec]
    rfl
  · intro mk hmk
    rw [hspec] at hmk
    simp only [Option.some_inj] at hmk
    subst hmk
    refine ⟨rfl, ?_, ?_⟩
    · intro h0
      simp [h0]
    · intro hpos
      rw [if_pos hpos]
      refine ⟨rfl, ?_⟩
      have h1 : ∀ i : ℕ, (parking_t_mark lane i).length = 3 := fun i => rfl
      simp only [List.length_flatten, List.map_map]
      have h2 : List.map (List.length ∘ parking_t_mark lane)
          (List.range (lane.number_parking_spots + 1))
          = List.map (fun _ : ℕ => 3) (List.range (lane.number_parking_spots + 1)) := by
        apply List.map_congr_left
        intro a _
        simp [Function.comp, h1]
      rw [h2, List.map_const', List.sum_replicate, List.length_range, smul_eq_mul, mul_comm]

/-- C7 witness: a 40 m parking lane has 4 spots and its parking marking holds
3·(4+1) = 15 segments. -/
theorem c7_parking_marking_witness :
    (calculate_parking_lines (mkLane LaneType.Parking 40)).map
      (fun mk => (mk.color, mk.lines.length)) = some (Colors.ParkingMarking, 15) := by
  have h := c7_parking_marking (mkLane LaneType.Parking 40) rfl
  obtain ⟨mk, hmk⟩ := Option.isSome_iff_exists.mp h.1
  have hn : (mkLane LaneType.Parking 40).number_parking_spots = 4 := by
    have hfl : ⌊(mkLane LaneType.Parking 40).length / PARKING_SPOT_LENGTH⌋ = 5 := by
      norm_num [mkLane, straightPoly, Lane.length, PARKING_SPOT_LENGTH]
    unfold Lane.number_parking_spots
    rw [hfl]
    rfl
  obtain ⟨hc, _, hlong⟩ := h.2 mk hmk
  have hlen := (hlong (by rw [hn]; norm_num)).2
  rw [hmk, Option.map_some', hc, hlen, hn]

/-- C8: building a driving lane whose destination intersection is not
signal-controlled consults the stop-sign table: the build succeeds exactly
when the table has an entry for that intersection (a missing entry is fatal);
for non-driving lanes or signal-controlled destinations the table is never
consulted and the build always succeeds. -/
theorem c8_missing_entry_fatal (lane : Lane) (m : Map) (cm : ControlMap) :
    (lane.is_driving = true → (m.get_i lane.dst_i).has_traffic_signal = false →
      ((DrawLane.new lane m cm).isSome = true ↔
        (cm.stop_signs lane.dst_i).isSome = true)) ∧
    ((lane.is_driving = false ∨ (m.get_i lane.dst_i).has_traffic_signal = true) →
      (DrawLane.new lane m cm).isSome = true) := by
  constructor
  · intro hd hs
    rw [DrawLane.new_isSome_iff, stop_markings_isSome_iff]
    have hc : (lane.is_driving && !(m.get_i lane.dst_i).has_traffic_signal) = true := by
      rw [hd, hs]
      rfl
    rw [hc]
    simp
  · intro h
    rw [DrawLane.new_isSome_iff, stop_markings_isSome_iff]
    left
    rcases h with h | h
    · rw [h]
      rfl
    · rw [h]
      simp

/-- C8 witness: a driving lane toward a signal-free intersection fails to
build against an empty stop-sign table, while a biking lane builds fine
against the same empty table. -/
theorem c8_missing_entry_witness :
    DrawLane.new (mkLane LaneType.Driving 40) (mkMap (mkRoad 99 0) false)
      emptyControlMap = none ∧
    (DrawLane.new (mkLane LaneType.Biking 40) (mkMap (mkRoad 99 0) true)
      emptyControlMap).isSome = true := by
  constructor
  · have h := (c8_missing_entry_fatal (mkLane LaneType.Driving 40)
      (mkMap (mkRoad 99 0) false) emptyControlMap).1 rfl rfl
    have h2 : ¬ (DrawLane.new (mkLane LaneType.Driving 40) (mkMap (mkRoad 99 0) false)
        emptyControlMap).isSome = true := by
      rw [h]
      simp [emptyControlMap]
    rw [← Option.not_isSome_iff_eq_none]
    simpa using h2
  · exact (c8_missing_entry_fatal (mkLane LaneType.Biking 40) (mkMap (mkRoad 99 0) true)
      emptyControlMap).2 (Or.inl rfl)

/-- C3: given the destination's stop-sign entry, a stop-line marking appears
in the artifact exactly when the lane is driving, the destination has no
traffic signal, the lane holds no priority there, and the safe lookup at
`L - 2·thickness` succeeds; in every other case there is no stop-line marking
and the build does not fail. -/
theorem c3_stop_line_iff (lane : Lane) (m : Map) (cm : ControlMap)
    (ss : ControlStopSign) (dl : DrawLane)
    (hss : cm.stop_signs lane.dst_i = some ss)
    (hdl : DrawLane.new lane m cm = some dl) :
    countColor dl.markings Colors.StopSignMarking =
      if lane.is_driving && !(m.get_i lane.dst_i).has_traffic_signal &&
         !(ss.is_priority_lane lane.id) &&
         (lane.safe_dist_along (lane.length - 2 * LANE_THICKNESS)).isSome
      then 1 else 0 := by
  obtain ⟨tms, sms, htms, hsms, hmark⟩ := DrawLane.new_inv lane m cm dl hdl
  rw [hmark, countColor_append, countColor_append]
  rw [countColor_orientation_other lane (m.get_r lane.parent) Colors.StopSignMarking
    (by decide)]
  rw [countColor_type_markings lane (m.get_r lane.parent) tms htms Colors.StopSignMarking
    (by decide) (by decide) (by decide)]
  cases hc : lane.is_driving && !(m.get_i lane.dst_i).has_traffic_signal with
  | false =>
    rw [stop_markings_cond_false lane m cm hc] at hsms
    simp only [Option.some_inj] at hsms
    subst hsms
    simp [countColor]
  | true =>
    rw [stop_markings_cond_true lane m cm hc,
        calculate_stop_sign_line_eq lane cm ss hss] at hsms
    simp only [Option.map_some', Option.some_inj] at hsms
    cases hp : ss.is_priority_lane lane.id with
    | true =>
      rw [hp] at hsms
      simp only [if_true, Option.toList_none] at hsms
      subst hsms
      simp [countColor]
    | false =>
      rw [hp] at hsms
      simp only [Bool.false_eq_true, if_false] at hsms
      cases hsafe : lane.safe_dist_along (lane.length - 2 * LANE_THICKNESS) with
      | none =>
        rw [hsafe] at hsms
        simp only [Option.map_none', Option.toList_none] at hsms
        subst hsms
        simp [countColor]
      | some pa =>
        rw [hsafe] at hsms
        simp only [Option.map_some', Option.toList_some] at hsms
        subst hsms
        simp [countColor, stop_line_mark]

/-- C3 witness: a 40 m driving lane toward a stop-sign-controlled,
signal-free intersection, without priority, gets exactly one stop-line
marking. -/
theorem c3_stop_line_witness :
    (DrawLane.new (mkLane LaneType.Driving 40) (mkMap (mkRoad 99 0) false)
      (mkControlMap false)).map
        (fun dl => countColor dl.markings Colors.StopSignMarking) = some 1 := by
  have htms : type_markings (mkLane LaneType.Driving 40)
      ((mkMap (mkRoad 99 0) false).get_r (mkLane LaneType.Driving 40).parent)
      = some [] := by
    show (calculate_driving_lines (mkLane LaneType.Driving 40)
      (mkRoad 99 0)).map Option.toList = some []
    rw [calculate_driving_lines_offset0 (mkLane LaneType.Driving 40) (mkRoad 99 0) rfl]
    rfl
  have hcond : (0:ℚ) ≤ (mkLane LaneType.Driving 40).length - 2 * LANE_THICKNESS ∧
      (mkLane LaneType.Driving 40).length - 2 * LANE_THICKNESS
        ≤ (mkLane LaneType.Driving 40).length := by
    constructor <;> norm_num [mkLane, straightPoly, Lane.length, LANE_THICKNESS]
  have hsafe : (mkLane LaneType.Driving 40).safe_dist_along
      ((mkLane LaneType.Driving 40).length - 2 * LANE_THICKNESS)
      = some ((mkLane LaneType.Driving 40).lane_center_pts.pointAt
          ((mkLane LaneType.Driving 40).length - 2 * LANE_THICKNESS)) := by
    rw [safe_dist_along_eq, if_pos hcond]
  have hsms : stop_markings (mkLane LaneType.Driving 40) (mkMap (mkRoad 99 0) false)
      (mkControlMap false)
      = some [stop_line_mark ((mkLane LaneType.Driving 40).lane_center_pts.pointAt
          ((mkLane LaneType.Driving 40).length - 2 * LANE_THICKNESS))] := by
    rw [stop_markings_cond_true (mkLane LaneType.Driving 40) (mkMap (mkRoad 99 0) false)
        (mkControlMap false) rfl,
      calculate_stop_sign_line_eq (mkLane LaneType.Driving 40) (mkControlMap false)
        ⟨fun _ => false⟩ rfl, hsafe]
    rfl
  have hnew := DrawLane.new_eq (mkLane LaneType.Driving 40) (mkMap (mkRoad 99 0) false)
    (mkControlMap false) []
    [stop_line_mark ((mkLane LaneType.Driving 40).lane_center_pts.pointAt
      ((mkLane LaneType.Driving 40).length - 2 * LANE_THICKNESS))] htms hsms
  rw [hnew, Option.map_some', Option.some_inj]
  rw [c3_stop_line_iff (mkLane LaneType.Driving 40) (mkMap (mkRoad 99 0) false)
    (mkControlMap false) ⟨fun _ => false⟩ _ rfl hnew]
  rw [hsafe]
  rfl

end AbStreet
